import Mathlib

/-!
Shallow embedding of the charge-gated, cache-aside image-generation worker
(`src/main.ts`, default-export `fetch` handler) and its cost model.

Conventions of the embedding:
* Monetary amounts in dollars are modelled as `ℚ` (the source uses JS
  doubles; all constants involved are small decimal literals), amounts in
  cents as `ℤ`.
* The external collaborators (R2 bucket = CacheStore, stripeflare's
  `ctx.charge` = BillingGate, the OpenAI endpoint = GenerationProvider)
  are modelled by explicit parameters of the handler; the charge contract
  (`allowNegative = false` fails cleanly rather than drive the balance
  below zero, and on success deducts the amount) follows the collaborator
  contract stated in the spec, §6.
* Presentational response bodies (HTML/Markdown/plain-text payloads,
  header lists) are modelled symbolically by constructors of
  `ResponseBody`; the spec declares their exact text out of scope.
* The observable I/O behaviour of one run is recorded as a `List Event`
  in execution order, so temporal claims (ordering of cache lookup,
  charge, provider call, write-back and response) can be stated.
-/

/-- ASCII lowering of one code point: the behaviour of JS
`String.prototype.toLowerCase` on the Basic Latin range, which covers
every key of the pricing table. -/
def asciiLowerChar (c : Char) : Char :=
  if 65 ≤ c.toNat ∧ c.toNat ≤ 90 then Char.ofNat (c.toNat + 32) else c

/-- `quality.toLowerCase()` as used in `calculateImageGenerationCost`. -/
def asciiLower (s : String) : String :=
  ⟨s.data.map asciiLowerChar⟩

/-- `PRICING.TEXT_INPUT_PER_1M` (dollars per 1M tokens). -/
def TEXT_INPUT_PER_1M : ℚ := 5

/-- `PRICING.TEXT_INPUT_CACHED_PER_1M`. -/
def TEXT_INPUT_CACHED_PER_1M : ℚ := 5 / 4

/-- `PRICING.IMAGE_INPUT_PER_1M`. -/
def IMAGE_INPUT_PER_1M : ℚ := 10

/-- `PRICING.IMAGE_INPUT_CACHED_PER_1M` (unused by the handler paths). -/
def IMAGE_INPUT_CACHED_PER_1M : ℚ := 5 / 2

/-- `PRICING.IMAGE_OUTPUT_PER_1M` (unused by the handler paths). -/
def IMAGE_OUTPUT_PER_1M : ℚ := 40

/-- `PRICING.OUTPUT_COSTS`: the two-level literal object, as a partial
lookup `quality → size → Option price` (absent key ↦ `none`, matching the
`undefined` the source tests for). -/
def OUTPUT_COSTS (quality size : String) : Option ℚ :=
  if quality = "low" then
    if size = "1024x1024" then some (11 / 1000)
    else if size = "1024x1536" then some (16 / 1000)
    else if size = "1536x1024" then some (16 / 1000)
    else none
  else if quality = "medium" then
    if size = "1024x1024" then some (42 / 1000)
    else if size = "1024x1536" then some (63 / 1000)
    else if size = "1536x1024" then some (63 / 1000)
    else none
  else if quality = "high" then
    if size = "1024x1024" then some (167 / 1000)
    else if size = "1024x1536" then some (1 / 4)
    else if size = "1536x1024" then some (1 / 4)
    else none
  else if quality = "auto" then
    if size = "1024x1024" then some (167 / 1000)
    else if size = "1024x1536" then some (1 / 4)
    else if size = "1536x1024" then some (1 / 4)
    else none
  else none

/-- `PRICING.FEE_PERCENTAGE_PER_IMAGE` — the configured fee multiplier. -/
def FEE_PERCENTAGE_PER_IMAGE : ℚ := 1 / 10

/-- `estimateTextTokens`: `Math.ceil(text.length / 4)`. -/
def estimateTextTokens (text : String) : Nat :=
  (text.length + 3) / 4

/-- `ImageCostParams` (the two optional token counts default to 0). -/
structure ImageCostParams where
  prompt : String
  size : String
  quality : String
  inputImageTokens : Nat := 0
  cachedInputTokens : Nat := 0

/-- `ImageCostBreakdown` minus the `breakdown` field of formatted strings,
which is presentational (string rendering of the numeric fields kept
here). -/
structure ImageCostBreakdown where
  textInputTokens : Nat
  textInputCost : ℚ
  imageInputTokens : Nat
  imageInputCost : ℚ
  imageOutputCost : ℚ
  totalCostInCents : ℤ
  deriving DecidableEq

/-- `calculateImageGenerationCost` from `src/main.ts`. -/
def calculateImageGenerationCost (params : ImageCostParams) :
    ImageCostBreakdown :=
  let normalizedQuality := asciiLower params.quality
  let textInputTokens := estimateTextTokens params.prompt
  let textInputCost : ℚ :=
    if params.cachedInputTokens > 0 then
      (params.cachedInputTokens : ℚ) / 1000000 * TEXT_INPUT_CACHED_PER_1M
    else
      (textInputTokens : ℚ) / 1000000 * TEXT_INPUT_PER_1M
  let imageInputCost : ℚ :=
    if params.inputImageTokens > 0 then
      (params.inputImageTokens : ℚ) / 1000000 * IMAGE_INPUT_PER_1M
    else 0
  let imageOutputCost : ℚ :=
    (OUTPUT_COSTS normalizedQuality params.size).getD 0
  let totalCostInDollars :=
    (textInputCost + imageInputCost + imageOutputCost) *
      FEE_PERCENTAGE_PER_IMAGE
  let totalCostInCents : ℤ := ⌈totalCostInDollars * 100⌉
  { textInputTokens := textInputTokens
    textInputCost := textInputCost
    imageInputTokens := params.inputImageTokens
    imageInputCost := imageInputCost
    imageOutputCost := imageOutputCost
    totalCostInCents := totalCostInCents }

/-- Hexadecimal digit value, as used by percent-decoding. -/
def hexDigitVal (c : Char) : Option Nat :=
  if 48 ≤ c.toNat ∧ c.toNat ≤ 57 then some (c.toNat - 48)
  else if 97 ≤ c.toNat ∧ c.toNat ≤ 102 then some (c.toNat - 97 + 10)
  else if 65 ≤ c.toNat ∧ c.toNat ≤ 70 then some (c.toNat - 65 + 10)
  else none

/-- Percent-decoding of a character list: each `%XX` escape becomes the
code point `XX`. This models JS `decodeURIComponent` for single-byte
escapes (the only ones exercised here); JS additionally reassembles
multi-byte UTF-8 sequences and throws on malformed input, which no claim
depends on. -/
def percentDecodeList : List Char → List Char
  | '%' :: h1 :: h2 :: rest =>
    match hexDigitVal h1, hexDigitVal h2 with
    | some a, some b => Char.ofNat (a * 16 + b) :: percentDecodeList rest
    | _, _ => '%' :: percentDecodeList (h1 :: h2 :: rest)
  | c :: rest => c :: percentDecodeList rest
  | [] => []

/-- `decodeURIComponent`, as applied to the prompt path segment. -/
def decodeURIComponent (s : String) : String :=
  ⟨percentDecodeList s.data⟩

/-- JS `String.prototype.split(sep)` on a single-character separator,
over the character list. `""` splits to `[""]`, separators at the ends
produce empty fields, exactly as in JS. -/
def splitOnChar (sep : Char) : List Char → List (List Char)
  | [] => [[]]
  | c :: cs =>
    let rest := splitOnChar sep cs
    if c = sep then [] :: rest
    else
      match rest with
      | r :: rs => (c :: r) :: rs
      | [] => [[c]]

/-- JS `String.prototype.startsWith`. -/
def strStartsWith (s pre : String) : Bool :=
  pre.data.isPrefixOf s.data

/-- First-occurrence replacement on character lists (JS
`String.prototype.replace` with a string pattern replaces only the first
occurrence). -/
def listReplaceFirst (pat rep : List Char) : List Char → List Char
  | [] => []
  | c :: cs =>
    if pat.isPrefixOf (c :: cs) then rep ++ (c :: cs).drop pat.length
    else c :: listReplaceFirst pat rep cs

/-- JS `s.replace(pat, rep)` with a plain-string pattern. -/
def replaceFirst (s pat rep : String) : String :=
  ⟨listReplaceFirst pat.data rep.data s.data⟩

/-- `parseImagePath` from `src/main.ts`: strip leading slashes, split on
`/`, drop empty segments; require at least `image/prompt` with the first
segment literally `image`; size defaults to `1024x1024` and quality to
`low`; the prompt segment is percent-decoded and must be non-empty. -/
def parseImagePath (pathname : String) :
    Option (String × String × String) :=
  let parts := ((splitOnChar '/' (pathname.data.dropWhile (· = '/'))).map
      (fun l => String.mk l)).filter (fun p => p.length > 0)
  if parts.length < 2 ∨ parts.getD 0 "" ≠ "image" then none
  else
    let prompt := decodeURIComponent (parts.getD 1 "")
    let size := parts.getD 2 "1024x1024"
    let quality := parts.getD 3 "low"
    if prompt = "" then none
    else some (prompt, size, quality)

/-- One stored object of the R2 bucket (`CacheStore` entry): raw bytes
plus the optional `httpMetadata.contentType`. -/
structure CacheEntry where
  body : List Nat
  contentType : Option String
  deriving DecidableEq

/-- The stripeflare caller context the handler reads: `ctx.registered`,
`ctx.user.balance` (integer cents) and `ctx.paymentLink`. -/
structure UserCtx where
  registered : Bool
  balance : Int
  paymentLink : String
  deriving DecidableEq

/-- Observable I/O actions of one handler run, in execution order.
`cachePut` records whether the attempted write-back succeeded;
`respond` marks the moment the `Response` object is returned. -/
inductive Event
  | cacheGet (key : String)
  | chargeCall (amountCents : Int)
  | providerCall
  | cachePut (key : String) (ok : Bool)
  | respond
  deriving DecidableEq

/-- Response bodies. Artifact bytes are kept verbatim; the various
textual payloads (HTML/JSON/plain text) are presentational and modelled
symbolically together with the data they embed that the claims mention. -/
inductive ResponseBody
  | bytes (data : List Nat)
  | empty
  | methodNotAllowed
  | landingPage
  | costUsage
  | costQuote (prompt size quality : String) (totalCents : Int)
  | paymentFailed
  | generationFailed (status : Nat)
  | processingFailed
  deriving DecidableEq

/-- Result of one handler run: HTTP status, `Content-Type` and
`Location` headers, body, the I/O event trace, and the caller's balance
after the run. -/
structure Outcome where
  status : Nat
  contentType : Option String
  location : Option String
  body : ResponseBody
  events : List Event
  finalBalance : Int
  deriving DecidableEq

/-- The `fetch` handler of `src/main.ts` (the `withStripeflare`-wrapped
arrow function). Parameters model the collaborators:
`cache` is the R2 bucket content; `providerStatus`/`providerBytes` the
upstream generation response (`fetch` treats status 200–299 as `ok`);
`bufferOk` whether extracting the first image's bytes succeeds
(`imageData.data[0]` / `getImageBuffer`); `putOk` whether the awaited
`saveImageToR2` write-back succeeds (its failure is caught and only
logged). The charge follows the BillingGate contract of the spec, §6:
with `allowNegative = false` it deducts `amount` when `amount ≤ balance`
and otherwise fails cleanly, leaving the balance unchanged. -/
def handleFetch (method pathname : String) (ctx : UserCtx)
    (cache : String → Option CacheEntry)
    (providerStatus : Nat) (providerBytes : List Nat)
    (bufferOk putOk : Bool) : Outcome :=
  let filename := pathname
  match cache filename with
  | some already =>
      { status := 200
        contentType := some (already.contentType.getD "image/png")
        location := none
        body := .bytes already.body
        events := [.cacheGet filename, .respond]
        finalBalance := ctx.balance }
  | none =>
      if strStartsWith pathname "/cost" then
        let imagePath := replaceFirst pathname "/cost/" "/image/"
        match parseImagePath imagePath with
        | none =>
            { status := 400
              contentType := some "application/json"
              location := none
              body := .costUsage
              events := [.cacheGet filename, .respond]
              finalBalance := ctx.balance }
        | some (prompt, size, quality) =>
            let costBreakdown := calculateImageGenerationCost
              { prompt := prompt, size := size, quality := quality }
            { status := 200
              contentType := some "application/json"
              location := none
              body := .costQuote prompt size quality
                costBreakdown.totalCostInCents
              events := [.cacheGet filename, .respond]
              finalBalance := ctx.balance }
      else if ctx.registered = false ∨ ctx.balance ≤ 0 then
        { status := 302
          contentType := none
          location := some ctx.paymentLink
          body := .empty
          events := [.cacheGet filename, .respond]
          finalBalance := ctx.balance }
      else if method ≠ "GET" then
        { status := 405
          contentType := none
          location := none
          body := .methodNotAllowed
          events := [.cacheGet filename, .respond]
          finalBalance := ctx.balance }
      else
        match parseImagePath pathname with
        | none =>
            { status := 400
              contentType := some "text/plain"
              location := none
              body := .landingPage
              events := [.cacheGet filename, .respond]
              finalBalance := ctx.balance }
        | some (prompt, size, quality) =>
            let costBreakdown := calculateImageGenerationCost
              { prompt := prompt, size := size, quality := quality }
            let totalCostInCents := costBreakdown.totalCostInCents
            if totalCostInCents ≤ ctx.balance then
              let balanceAfter := ctx.balance - totalCostInCents
              if 200 ≤ providerStatus ∧ providerStatus < 300 then
                if bufferOk then
                  { status := 200
                    contentType := some "image/png"
                    location := none
                    body := .bytes providerBytes
                    events := [.cacheGet filename,
                      .chargeCall totalCostInCents, .providerCall,
                      .cachePut filename putOk, .respond]
                    finalBalance := balanceAfter }
                else
                  { status := 500
                    contentType := some "application/json"
                    location := none
                    body := .processingFailed
                    events := [.cacheGet filename,
                      .chargeCall totalCostInCents, .providerCall,
                      .respond]
                    finalBalance := balanceAfter }
              else
                { status := providerStatus
                  contentType := some "application/json"
                  location := none
                  body := .generationFailed providerStatus
                  events := [.cacheGet filename,
                    .chargeCall totalCostInCents, .providerCall, .respond]
                  finalBalance := balanceAfter }
            else
              { status := 402
                contentType := none
                location := none
                body := .paymentFailed
                events := [.cacheGet filename,
                  .chargeCall totalCostInCents, .respond]
                finalBalance := ctx.balance }

/-- Recognizer: is this event a `BillingGate.charge` call? -/
def isChargeEvent : Event → Bool
  | .chargeCall _ => true
  | _ => false

/-- Recognizer: is this event a `CacheStore.get`? -/
def isCacheGetEvent : Event → Bool
  | .cacheGet _ => true
  | _ => false

/-- Recognizer: is this event a `CacheStore.put` attempt? -/
def isPutEvent : Event → Bool
  | .cachePut _ _ => true
  | _ => false

/-- Recognizer: is this event the return of the response? -/
def isRespondEvent : Event → Bool
  | .respond => true
  | _ => false

/-! ### Helper lemmas -/

theorem asciiLowerChar_idem (c : Char) :
    asciiLowerChar (asciiLowerChar c) = asciiLowerChar c := by
  by_cases h : 65 ≤ c.toNat ∧ c.toNat ≤ 90
  · obtain ⟨h1, h2⟩ := h
    have hc : asciiLowerChar c = Char.ofNat (c.toNat + 32) := by
      unfold asciiLowerChar
      rw [if_pos ⟨h1, h2⟩]
    rw [hc]
    generalize hg : c.toNat = n at h1 h2
    interval_cases n <;> decide
  · have hc : asciiLowerChar c = c := by
      unfold asciiLowerChar
      rw [if_neg h]
    rw [hc, hc]

theorem asciiLower_idem (s : String) :
    asciiLower (asciiLower s) = asciiLower s := by
  show String.mk ((s.data.map asciiLowerChar).map asciiLowerChar)
      = String.mk (s.data.map asciiLowerChar)
  rw [List.map_map]
  congr 1
  simp [Function.comp, asciiLowerChar_idem]

theorem totalCost_cat_low :
    (calculateImageGenerationCost
      { prompt := "cat", size := "1024x1024",
        quality := "low" }).totalCostInCents = 1 := by
  have h1 : asciiLower "low" = "low" := by decide
  have h2 : estimateTextTokens "cat" = 1 := by decide
  have h3 : OUTPUT_COSTS "low" "1024x1024" = some (11 / 1000) := rfl
  simp only [calculateImageGenerationCost, h1, h2, h3]
  norm_num [TEXT_INPUT_PER_1M, FEE_PERCENTAGE_PER_IMAGE, Int.ceil_eq_iff]

theorem totalCost_cat_ultra :
    (calculateImageGenerationCost
      { prompt := "cat", size := "1024x1024",
        quality := "ultra" }).totalCostInCents = 1 := by
  have h1 : asciiLower "ultra" = "ultra" := by decide
  have h2 : estimateTextTokens "cat" = 1 := by decide
  have h3 : OUTPUT_COSTS "ultra" "1024x1024" = none := rfl
  simp only [calculateImageGenerationCost, h1, h2, h3]
  norm_num [TEXT_INPUT_PER_1M, FEE_PERCENTAGE_PER_IMAGE, Int.ceil_eq_iff]

theorem totalCost_cat_high_portrait :
    (calculateImageGenerationCost
      { prompt := "cat", size := "1024x1536",
        quality := "high" }).totalCostInCents = 3 := by
  have h1 : asciiLower "high" = "high" := by decide
  have h2 : estimateTextTokens "cat" = 1 := by decide
  have h3 : OUTPUT_COSTS "high" "1024x1536" = some (1 / 4) := rfl
  simp only [calculateImageGenerationCost, h1, h2, h3]
  norm_num [TEXT_INPUT_PER_1M, FEE_PERCENTAGE_PER_IMAGE, Int.ceil_eq_iff]

/-! ### Claims -/

/-- C1: a request whose cache key is present in the CacheStore is served
the stored bytes with the stored content-type (defaulting to
`image/png`), and BillingGate.charge is never called — a cache hit
incurs zero charge and leaves the balance unchanged. -/
theorem cache_hit_returns_stored_bytes_without_charge
    (method pathname : String) (ctx : UserCtx)
    (cache : String → Option CacheEntry)
    (providerStatus : Nat) (providerBytes : List Nat)
    (bufferOk putOk : Bool) (entry : CacheEntry)
    (h : cache pathname = some entry) :
    (handleFetch method pathname ctx cache providerStatus providerBytes
        bufferOk putOk).status = 200 ∧
    (handleFetch method pathname ctx cache providerStatus providerBytes
        bufferOk putOk).body = ResponseBody.bytes entry.body ∧
    (handleFetch method pathname ctx cache providerStatus providerBytes
        bufferOk putOk).contentType
      = some (entry.contentType.getD "image/png") ∧
    ((handleFetch method pathname ctx cache providerStatus providerBytes
        bufferOk putOk).events.countP (fun e => isChargeEvent e)) = 0 ∧
    (handleFetch method pathname ctx cache providerStatus providerBytes
        bufferOk putOk).finalBalance = ctx.balance := by
  simp [handleFetch, h, isChargeEvent]

theorem cache_hit_returns_stored_bytes_without_charge_witness :
    ((fun k => if k = "/image/cat" then
        some ({ body := [7, 7], contentType := some "image/png" } : CacheEntry)
      else none) "/image/cat"
      = some ({ body := [7, 7], contentType := some "image/png" } : CacheEntry)) ∧
    ((handleFetch "GET" "/image/cat"
        { registered := true, balance := 5, paymentLink := "pay" }
        (fun k => if k = "/image/cat" then
          some ({ body := [7, 7], contentType := some "image/png" } : CacheEntry)
        else none) 200 [1] true true).status = 200 ∧
    (handleFetch "GET" "/image/cat"
        { registered := true, balance := 5, paymentLink := "pay" }
        (fun k => if k = "/image/cat" then
          some ({ body := [7, 7], contentType := some "image/png" } : CacheEntry)
        else none) 200 [1] true true).body = ResponseBody.bytes [7, 7] ∧
    (handleFetch "GET" "/image/cat"
        { registered := true, balance := 5, paymentLink := "pay" }
        (fun k => if k = "/image/cat" then
          some ({ body := [7, 7], contentType := some "image/png" } : CacheEntry)
        else none) 200 [1] true true).contentType = some "image/png" ∧
    ((handleFetch "GET" "/image/cat"
        { registered := true, balance := 5, paymentLink := "pay" }
        (fun k => if k = "/image/cat" then
          some ({ body := [7, 7], contentType := some "image/png" } : CacheEntry)
        else none) 200 [1] true true).events.countP
          (fun e => isChargeEvent e)) = 0 ∧
    (handleFetch "GET" "/image/cat"
        { registered := true, balance := 5, paymentLink := "pay" }
        (fun k => if k = "/image/cat" then
          some ({ body := [7, 7], contentType := some "image/png" } : CacheEntry)
        else none) 200 [1] true true).finalBalance = 5) :=
  ⟨by decide,
    cache_hit_returns_stored_bytes_without_charge "GET" "/image/cat"
      { registered := true, balance := 5, paymentLink := "pay" } _ 200 [1]
      true true { body := [7, 7], contentType := some "image/png" }
      (by decide)⟩

/-- C2 counterexample: a registered caller with balance 0 does get the
payment-required redirect, but only after a `CacheStore.get` has been
performed — the cache lookup precedes the auth check, so the claim that
no `CacheStore.get` occurs for such a caller is false. -/
theorem unregistered_caller_still_triggers_cache_get :
    (handleFetch "GET" "/image/cat"
      { registered := true, balance := 0, paymentLink := "pay" }
      (fun _ => none) 200 [] true true).status = 302 ∧
    Event.cacheGet "/image/cat" ∈ (handleFetch "GET" "/image/cat"
      { registered := true, balance := 0, paymentLink := "pay" }
      (fun _ => none) 200 [] true true).events := by
  decide

/-- C2 amended: for an unregistered caller or one with balance ≤ 0, on a
cache miss whose path is not a `/cost` quote path, the handler returns
the payment-required redirect with no charge, no provider call and no
write-back, leaving the balance unchanged — but the CacheStore lookup
does happen first (the trace is exactly lookup then respond). -/
theorem payment_required_skips_charge_and_provider_after_cache_miss
    (method pathname : String) (ctx : UserCtx)
    (cache : String → Option CacheEntry)
    (providerStatus : Nat) (providerBytes : List Nat)
    (bufferOk putOk : Bool)
    (h1 : cache pathname = none)
    (h2 : strStartsWith pathname "/cost" = false)
    (h3 : ctx.registered = false ∨ ctx.balance ≤ 0) :
    (handleFetch method pathname ctx cache providerStatus providerBytes
        bufferOk putOk).status = 302 ∧
    (handleFetch method pathname ctx cache providerStatus providerBytes
        bufferOk putOk).location = some ctx.paymentLink ∧
    (handleFetch method pathname ctx cache providerStatus providerBytes
        bufferOk putOk).events = [Event.cacheGet pathname, Event.respond] ∧
    (handleFetch method pathname ctx cache providerStatus providerBytes
        bufferOk putOk).finalBalance = ctx.balance := by
  simp [handleFetch, h1, h2, h3]

theorem payment_required_skips_charge_and_provider_after_cache_miss_witness :
    ((fun (_ : String) => (none : Option CacheEntry)) "/image/cat" = none) ∧
    (strStartsWith "/image/cat" "/cost" = false) ∧
    (({ registered := true, balance := 0, paymentLink := "pay" }
        : UserCtx).registered = false ∨
      ({ registered := true, balance := 0, paymentLink := "pay" }
        : UserCtx).balance ≤ 0) ∧
    ((handleFetch "GET" "/image/cat"
        { registered := true, balance := 0, paymentLink := "pay" }
        (fun _ => none) 200 [] true true).status = 302 ∧
    (handleFetch "GET" "/image/cat"
        { registered := true, balance := 0, paymentLink := "pay" }
        (fun _ => none) 200 [] true true).location = some "pay" ∧
    (handleFetch "GET" "/image/cat"
        { registered := true, balance := 0, paymentLink := "pay" }
        (fun _ => none) 200 [] true true).events
      = [Event.cacheGet "/image/cat", Event.respond] ∧
    (handleFetch "GET" "/image/cat"
        { registered := true, balance := 0, paymentLink := "pay" }
        (fun _ => none) 200 [] true true).finalBalance = 0) :=
  ⟨rfl, by decide, Or.inr (by decide),
    payment_required_skips_charge_and_provider_after_cache_miss
      "GET" "/image/cat"
      { registered := true, balance := 0, paymentLink := "pay" }
      (fun _ => none) 200 [] true true rfl (by decide)
      (Or.inr (by decide))⟩

/-- C3: on a cache miss with an authorized caller, when the charge
succeeds (cost ≤ balance) and the provider then fails (non-2xx status),
the response carries the upstream status, the charge is not reversed,
and the final balance is the starting balance minus the computed cost. -/
theorem provider_failure_surfaces_status_and_keeps_charge
    (pathname : String) (ctx : UserCtx)
    (cache : String → Option CacheEntry)
    (providerStatus : Nat) (providerBytes : List Nat)
    (bufferOk putOk : Bool) (prompt size quality : String)
    (h1 : cache pathname = none)
    (h2 : strStartsWith pathname "/cost" = false)
    (h3 : ctx.registered = true)
    (h4 : 0 < ctx.balance)
    (h5 : parseImagePath pathname = some (prompt, size, quality))
    (h6 : (calculateImageGenerationCost
        { prompt := prompt, size := size,
          quality := quality }).totalCostInCents ≤ ctx.balance)
    (h7 : ¬(200 ≤ providerStatus ∧ providerStatus < 300)) :
    (handleFetch "GET" pathname ctx cache providerStatus providerBytes
        bufferOk putOk).status = providerStatus ∧
    (handleFetch "GET" pathname ctx cache providerStatus providerBytes
        bufferOk putOk).body = ResponseBody.generationFailed providerStatus ∧
    (handleFetch "GET" pathname ctx cache providerStatus providerBytes
        bufferOk putOk).finalBalance
      = ctx.balance - (calculateImageGenerationCost
          { prompt := prompt, size := size,
            quality := quality }).totalCostInCents := by
  simp [handleFetch, h1, h2, h3, h5, h6, h7, not_le.mpr h4]

theorem provider_failure_surfaces_status_and_keeps_charge_witness :
    ((fun (_ : String) => (none : Option CacheEntry)) "/image/cat" = none) ∧
    (strStartsWith "/image/cat" "/cost" = false) ∧
    ((0 : Int) < 100) ∧
    (parseImagePath "/image/cat" = some ("cat", "1024x1024", "low")) ∧
    ((calculateImageGenerationCost
        { prompt := "cat", size := "1024x1024",
          quality := "low" }).totalCostInCents ≤ 100) ∧
    (¬(200 ≤ 500 ∧ 500 < 300)) ∧
    ((handleFetch "GET" "/image/cat"
        { registered := true, balance := 100, paymentLink := "pay" }
        (fun _ => none) 500 [] true true).status = 500 ∧
    (handleFetch "GET" "/image/cat"
        { registered := true, balance := 100, paymentLink := "pay" }
        (fun _ => none) 500 [] true true).body
      = ResponseBody.generationFailed 500 ∧
    (handleFetch "GET" "/image/cat"
        { registered := true, balance := 100, paymentLink := "pay" }
        (fun _ => none) 500 [] true true).finalBalance
      = 100 - (calculateImageGenerationCost
          { prompt := "cat", size := "1024x1024",
            quality := "low" }).totalCostInCents) :=
  ⟨rfl, by decide, by decide, by decide,
    by rw [totalCost_cat_low]; decide, by decide,
    provider_failure_surfaces_status_and_keeps_charge "/image/cat"
      { registered := true, balance := 100, paymentLink := "pay" }
      (fun _ => none) 500 [] true true "cat" "1024x1024" "low" rfl
      (by decide) rfl (by decide) (by decide)
      (by rw [totalCost_cat_low]; decide) (by decide)⟩

/-- C4: for every request, the total charge of the cost model equals
`⌈feeMultiplier * (textInputCost + imageInputCost + imageOutputCost)⌉`
expressed in integer cents (the component costs are in dollars, hence
the factor 100), with the configured fee constant
`FEE_PERCENTAGE_PER_IMAGE` as the multiplier. -/
theorem totalCharge_eq_ceil_fee_times_component_sum
    (params : ImageCostParams) :
    (calculateImageGenerationCost params).totalCostInCents =
      ⌈FEE_PERCENTAGE_PER_IMAGE *
        ((calculateImageGenerationCost params).textInputCost +
          (calculateImageGenerationCost params).imageInputCost +
          (calculateImageGenerationCost params).imageOutputCost) * 100⌉ := by
  simp only [calculateImageGenerationCost]
  congr 1
  ring

/-- C5 counterexample: the unknown quality tier `"ultra"` is not
rejected by validation — `parseImagePath` accepts it, and the run
charges the amount computed by `calculateImageGenerationCost` on that
very tier, so the cost model does run on it. -/
theorem ultra_quality_reaches_cost_model :
    parseImagePath "/image/cat/1024x1024/ultra"
      = some ("cat", "1024x1024", "ultra") ∧
    Event.chargeCall ((calculateImageGenerationCost
        { prompt := "cat", size := "1024x1024",
          quality := "ultra" }).totalCostInCents)
      ∈ (handleFetch "GET" "/image/cat/1024x1024/ultra"
          { registered := true, balance := 100, paymentLink := "pay" }
          (fun _ => none) 200 [9] true true).events := by
  constructor
  · decide
  · have hp : parseImagePath "/image/cat/1024x1024/ultra"
        = some ("cat", "1024x1024", "ultra") := by decide
    have hs : strStartsWith "/image/cat/1024x1024/ultra" "/cost" = false := by
      decide
    simp only [handleFetch, hp, hs, totalCost_cat_ultra]
    norm_num

/-- C5 amended: a request with a quality tier absent from the
output-price table is not rejected before the cost model: the pipeline
proceeds to the charge with the amount computed by
`calculateImageGenerationCost` on that tier, whose image-output
component is 0. -/
theorem unknown_quality_not_rejected_prices_output_zero
    (pathname : String) (ctx : UserCtx)
    (cache : String → Option CacheEntry)
    (providerStatus : Nat) (providerBytes : List Nat)
    (bufferOk putOk : Bool) (prompt size quality : String)
    (h1 : cache pathname = none)
    (h2 : strStartsWith pathname "/cost" = false)
    (h3 : ctx.registered = true)
    (h4 : 0 < ctx.balance)
    (h5 : parseImagePath pathname = some (prompt, size, quality))
    (h6 : OUTPUT_COSTS (asciiLower quality) size = none) :
    Event.chargeCall ((calculateImageGenerationCost
        { prompt := prompt, size := size,
          quality := quality }).totalCostInCents)
      ∈ (handleFetch "GET" pathname ctx cache providerStatus providerBytes
          bufferOk putOk).events ∧
    (calculateImageGenerationCost
        { prompt := prompt, size := size,
          quality := quality }).imageOutputCost = 0 := by
  refine ⟨?_, by simp only [calculateImageGenerationCost, h6, Option.getD]⟩
  by_cases hc : (calculateImageGenerationCost
      { prompt := prompt, size := size,
        quality := quality }).totalCostInCents ≤ ctx.balance
  · by_cases hp2 : 200 ≤ providerStatus ∧ providerStatus < 300
    · cases bufferOk <;>
        simp [handleFetch, h1, h2, h3, h5, not_le.mpr h4, hc, hp2]
    · simp [handleFetch, h1, h2, h3, h5, not_le.mpr h4, hc, hp2]
  · simp [handleFetch, h1, h2, h3, h5, not_le.mpr h4, hc]

theorem unknown_quality_not_rejected_prices_output_zero_witness :
    ((fun (_ : String) => (none : Option CacheEntry))
        "/image/cat/1024x1024/ultra" = none) ∧
    (strStartsWith "/image/cat/1024x1024/ultra" "/cost" = false) ∧
    ((0 : Int) < 100) ∧
    (parseImagePath "/image/cat/1024x1024/ultra"
      = some ("cat", "1024x1024", "ultra")) ∧
    (OUTPUT_COSTS (asciiLower "ultra") "1024x1024" = none) ∧
    (Event.chargeCall ((calculateImageGenerationCost
        { prompt := "cat", size := "1024x1024",
          quality := "ultra" }).totalCostInCents)
      ∈ (handleFetch "GET" "/image/cat/1024x1024/ultra"
          { registered := true, balance := 100, paymentLink := "pay" }
          (fun _ => none) 200 [9] true true).events ∧
    (calculateImageGenerationCost
        { prompt := "cat", size := "1024x1024",
          quality := "ultra" }).imageOutputCost = 0) :=
  ⟨rfl, by decide, by decide, by decide, by decide,
    unknown_quality_not_rejected_prices_output_zero
      "/image/cat/1024x1024/ultra"
      { registered := true, balance := 100, paymentLink := "pay" }
      (fun _ => none) 200 [9] true true "cat" "1024x1024" "ultra" rfl
      (by decide) rfl (by decide) (by decide) (by decide)⟩

/-- C6 counterexample: in a successful generation run, the write-back to
the CacheStore happens strictly before the response is returned (a
`cachePut` appears in the trace before the `respond` marker), so the
artifact is not written "only after the response has been returned". -/
theorem writeback_precedes_response_concrete :
    (((handleFetch "GET" "/image/cat"
        { registered := true, balance := 100, paymentLink := "pay" }
        (fun _ => none) 200 [9] true true).events.takeWhile
          (fun e => !isRespondEvent e)).any isPutEvent) = true := by
  have hp : parseImagePath "/image/cat" = some ("cat", "1024x1024", "low") := by
    decide
  have hs : strStartsWith "/image/cat" "/cost" = false := by decide
  simp only [handleFetch, hp, hs, totalCost_cat_low]
  norm_num [isRespondEvent, isPutEvent]

/-- C6 amended: after a successful generation the artifact write-back is
awaited before the response is returned: the trace is exactly
lookup, charge, provider call, put attempt, respond — the put attempt
(whether it succeeds or not) precedes the respond marker, and the
response is the generated image. -/
theorem writeback_awaited_before_response
    (pathname : String) (ctx : UserCtx)
    (cache : String → Option CacheEntry)
    (providerStatus : Nat) (providerBytes : List Nat)
    (putOk : Bool) (prompt size quality : String)
    (h1 : cache pathname = none)
    (h2 : strStartsWith pathname "/cost" = false)
    (h3 : ctx.registered = true)
    (h4 : 0 < ctx.balance)
    (h5 : parseImagePath pathname = some (prompt, size, quality))
    (h6 : (calculateImageGenerationCost
        { prompt := prompt, size := size,
          quality := quality }).totalCostInCents ≤ ctx.balance)
    (h7 : 200 ≤ providerStatus ∧ providerStatus < 300) :
    (handleFetch "GET" pathname ctx cache providerStatus providerBytes
        true putOk).events
      = [Event.cacheGet pathname,
          Event.chargeCall ((calculateImageGenerationCost
            { prompt := prompt, size := size,
              quality := quality }).totalCostInCents),
          Event.providerCall, Event.cachePut pathname putOk,
          Event.respond] ∧
    (((handleFetch "GET" pathname ctx cache providerStatus providerBytes
        true putOk).events.takeWhile
          (fun e => !isRespondEvent e)).any isPutEvent) = true ∧
    (handleFetch "GET" pathname ctx cache providerStatus providerBytes
        true putOk).status = 200 ∧
    (handleFetch "GET" pathname ctx cache providerStatus providerBytes
        true putOk).body = ResponseBody.bytes providerBytes := by
  simp [handleFetch, h1, h2, h3, h5, h6, h7, not_le.mpr h4,
    isRespondEvent, isPutEvent]

theorem writeback_awaited_before_response_witness :
    ((fun (_ : String) => (none : Option CacheEntry)) "/image/cat" = none) ∧
    (strStartsWith "/image/cat" "/cost" = false) ∧
    ((0 : Int) < 100) ∧
    (parseImagePath "/image/cat" = some ("cat", "1024x1024", "low")) ∧
    ((calculateImageGenerationCost
        { prompt := "cat", size := "1024x1024",
          quality := "low" }).totalCostInCents ≤ 100) ∧
    (200 ≤ 200 ∧ 200 < 300) ∧
    ((handleFetch "GET" "/image/cat"
        { registered := true, balance := 100, paymentLink := "pay" }
        (fun _ => none) 200 [9] true false).events
      = [Event.cacheGet "/image/cat",
          Event.chargeCall ((calculateImageGenerationCost
            { prompt := "cat", size := "1024x1024",
              quality := "low" }).totalCostInCents),
          Event.providerCall, Event.cachePut "/image/cat" false,
          Event.respond] ∧
    (((handleFetch "GET" "/image/cat"
        { registered := true, balance := 100, paymentLink := "pay" }
        (fun _ => none) 200 [9] true false).events.takeWhile
          (fun e => !isRespondEvent e)).any isPutEvent) = true ∧
    (handleFetch "GET" "/image/cat"
        { registered := true, balance := 100, paymentLink := "pay" }
        (fun _ => none) 200 [9] true false).status = 200 ∧
    (handleFetch "GET" "/image/cat"
        { registered := true, balance := 100, paymentLink := "pay" }
        (fun _ => none) 200 [9] true false).body
      = ResponseBody.bytes [9]) :=
  ⟨rfl, by decide, by decide, by decide,
    by rw [totalCost_cat_low]; decide, by decide,
    writeback_awaited_before_response "/image/cat"
      { registered := true, balance := 100, paymentLink := "pay" }
      (fun _ => none) 200 [9] false "cat" "1024x1024" "low" rfl
      (by decide) rfl (by decide) (by decide)
      (by rw [totalCost_cat_low]; decide) (by decide)⟩

/-- C7: the success or failure of the CacheStore write-back never
changes the HTTP-level outcome: for any two runs differing only in
whether `saveImageToR2` succeeds, status, body, content-type, location
and final balance are identical (the failure is caught and only
logged). -/
theorem persistence_failure_does_not_change_response
    (method pathname : String) (ctx : UserCtx)
    (cache : String → Option CacheEntry)
    (providerStatus : Nat) (providerBytes : List Nat)
    (bufferOk putOk putOk' : Bool) :
    (handleFetch method pathname ctx cache providerStatus providerBytes
        bufferOk putOk).status
      = (handleFetch method pathname ctx cache providerStatus providerBytes
          bufferOk putOk').status ∧
    (handleFetch method pathname ctx cache providerStatus providerBytes
        bufferOk putOk).body
      = (handleFetch method pathname ctx cache providerStatus providerBytes
          bufferOk putOk').body ∧
    (handleFetch method pathname ctx cache providerStatus providerBytes
        bufferOk putOk).contentType
      = (handleFetch method pathname ctx cache providerStatus providerBytes
          bufferOk putOk').contentType ∧
    (handleFetch method pathname ctx cache providerStatus providerBytes
        bufferOk putOk).location
      = (handleFetch method pathname ctx cache providerStatus providerBytes
          bufferOk putOk').location ∧
    (handleFetch method pathname ctx cache providerStatus providerBytes
        bufferOk putOk).finalBalance
      = (handleFetch method pathname ctx cache providerStatus providerBytes
          bufferOk putOk').finalBalance := by
  rcases hc : cache pathname with _ | entry
  · rcases hp1 : parseImagePath (replaceFirst pathname "/cost/" "/image/")
      with _ | ⟨p1, s1, q1⟩ <;>
    rcases hp2 : parseImagePath pathname with _ | ⟨p2, s2, q2⟩ <;>
      simp only [handleFetch, hc, hp1, hp2] <;> (try split_ifs) <;>
      simp
  · simp [handleFetch, hc]

/-- C8: for every request whose normalized `(quality, size)` pair is
absent from the output-price table, the cost model prices the image
output at zero and completes normally (it is a total Lean function, so
no exception is possible). -/
theorem missing_output_price_gives_zero_cost
    (params : ImageCostParams)
    (h : OUTPUT_COSTS (asciiLower params.quality) params.size = none) :
    (calculateImageGenerationCost params).imageOutputCost = 0 := by
  simp only [calculateImageGenerationCost, h, Option.getD]

theorem missing_output_price_gives_zero_cost_witness :
    (OUTPUT_COSTS (asciiLower "ultra") "1024x1024" = none) ∧
    (calculateImageGenerationCost
      { prompt := "cat", size := "1024x1024",
        quality := "ultra" }).imageOutputCost = 0 :=
  ⟨by decide,
    missing_output_price_gives_zero_cost
      { prompt := "cat", size := "1024x1024", quality := "ultra" }
      (by decide)⟩

/-- C9: when the charge attempt is declined (cost exceeds the balance,
so the §6 contract with `allowNegative = false` yields
`charged = false`), the run ends in the 402 payment-failure outcome; the
trace shows exactly one charge attempt and no provider call, and the
balance is unchanged. -/
theorem charge_declined_short_circuits_before_provider
    (pathname : String) (ctx : UserCtx)
    (cache : String → Option CacheEntry)
    (providerStatus : Nat) (providerBytes : List Nat)
    (bufferOk putOk : Bool) (prompt size quality : String)
    (h1 : cache pathname = none)
    (h2 : strStartsWith pathname "/cost" = false)
    (h3 : ctx.registered = true)
    (h4 : 0 < ctx.balance)
    (h5 : parseImagePath pathname = some (prompt, size, quality))
    (h6 : ctx.balance < (calculateImageGenerationCost
        { prompt := prompt, size := size,
          quality := quality }).totalCostInCents) :
    (handleFetch "GET" pathname ctx cache providerStatus providerBytes
        bufferOk putOk).status = 402 ∧
    (handleFetch "GET" pathname ctx cache providerStatus providerBytes
        bufferOk putOk).body = ResponseBody.paymentFailed ∧
    (handleFetch "GET" pathname ctx cache providerStatus providerBytes
        bufferOk putOk).events
      = [Event.cacheGet pathname,
          Event.chargeCall ((calculateImageGenerationCost
            { prompt := prompt, size := size,
              quality := quality }).totalCostInCents),
          Event.respond] ∧
    (handleFetch "GET" pathname ctx cache providerStatus providerBytes
        bufferOk putOk).finalBalance = ctx.balance := by
  simp [handleFetch, h1, h2, h3, h5, not_le.mpr h4, not_le.mpr h6]

theorem charge_declined_short_circuits_before_provider_witness :
    ((fun (_ : String) => (none : Option CacheEntry))
        "/image/cat/1024x1536/high" = none) ∧
    (strStartsWith "/image/cat/1024x1536/high" "/cost" = false) ∧
    ((0 : Int) < 2) ∧
    (parseImagePath "/image/cat/1024x1536/high"
      = some ("cat", "1024x1536", "high")) ∧
    ((2 : Int) < (calculateImageGenerationCost
        { prompt := "cat", size := "1024x1536",
          quality := "high" }).totalCostInCents) ∧
    ((handleFetch "GET" "/image/cat/1024x1536/high"
        { registered := true, balance := 2, paymentLink := "pay" }
        (fun _ => none) 200 [] true true).status = 402 ∧
    (handleFetch "GET" "/image/cat/1024x1536/high"
        { registered := true, balance := 2, paymentLink := "pay" }
        (fun _ => none) 200 [] true true).body
      = ResponseBody.paymentFailed ∧
    (handleFetch "GET" "/image/cat/1024x1536/high"
        { registered := true, balance := 2, paymentLink := "pay" }
        (fun _ => none) 200 [] true true).events
      = [Event.cacheGet "/image/cat/1024x1536/high",
          Event.chargeCall ((calculateImageGenerationCost
            { prompt := "cat", size := "1024x1536",
              quality := "high" }).totalCostInCents),
          Event.respond] ∧
    (handleFetch "GET" "/image/cat/1024x1536/high"
        { registered := true, balance := 2, paymentLink := "pay" }
        (fun _ => none) 200 [] true true).finalBalance = 2) :=
  ⟨rfl, by decide, by decide, by decide,
    by rw [totalCost_cat_high_portrait]; decide,
    charge_declined_short_circuits_before_provider
      "/image/cat/1024x1536/high"
      { registered := true, balance := 2, paymentLink := "pay" }
      (fun _ => none) 200 [] true true "cat" "1024x1536" "high" rfl
      (by decide) rfl (by decide) (by decide)
      (by rw [totalCost_cat_high_portrait]; decide)⟩

/-- C10: quality matching in the cost model is case-insensitive — the
breakdown for any quality string equals the breakdown for its lowercase
form, because the model lowercases before the table lookup and lowering
is idempotent. -/
theorem cost_model_quality_case_insensitive (params : ImageCostParams) :
    calculateImageGenerationCost params
      = calculateImageGenerationCost
          { params with quality := asciiLower params.quality } := by
  simp only [calculateImageGenerationCost, asciiLower_idem]
